import Mathlib

/-!
Verification of the Territory Zone Aggregation & Clipping Pipeline of the
aminaura-site repository (scratch/emg-field-ops).

The Python scripts are embedded shallowly:
* a GeoDataFrame is a list of rows (tracts) plus an optional CRS tag;
* a geometry is a finite set of integer grid cells, so that geometric
  intersection, containment, disjointness and emptiness are the set-theoretic
  ones (the scripts only rely on these properties of shapely polygons, and
  the spec's ZoneDataset invariant restricts attention to valid geometries);
* reprojection (`to_crs`) is an arbitrary coordinate transform, passed as an
  explicit parameter `reproj`, since the pipeline never inspects coordinates
  after reprojecting;
* Python exceptions that the scripts catch are modelled by total functions
  returning `Option` (`none` is the caught-and-logged path);
* an HTTP interaction of `requests.get` is modelled by a `FetchResponse`
  value describing what the remote service did.
-/

namespace Emg

/-- A geometry as a finite set of integer grid cells.  Intersection,
containment and emptiness of valid polygons are modelled set-theoretically. -/
abbrev Geometry := Finset (ℤ × ℤ)

/-- A non-geometry attribute value of a GeoDataFrame cell.  `dtime` stands for
a value in a datetime64-typed column; `str` and `num` are the ordinary
JSON-serializable column values. -/
inductive AttrValue where
  | str (s : String) : AttrValue
  | num (n : Int) : AttrValue
  | dtime (t : Int) : AttrValue
deriving DecidableEq

/-- `true` exactly on values of a datetime-typed column
(`pd.api.types.is_datetime64_any_dtype`). -/
def AttrValue.isDatetime : AttrValue → Bool
  | .dtime _ => true
  | _ => false

/-- One row of a tract GeoDataFrame, as produced by the TIGERweb fetches:
the GEOID identifier column, the NAME column, the geometry column, and the
remaining attribute columns as a name/value list. -/
structure Tract where
  geoid : String
  name : String
  geometry : Geometry
  attrs : List (String × AttrValue)
deriving DecidableEq

/-- A GeoDataFrame: an ordered list of rows together with its CRS tag
(`gdf.crs`, `none` when no CRS is declared). -/
structure GeoDataFrame where
  rows : List Tract
  crs : Option String
deriving DecidableEq

/-- The CRS string the scripts assume and pin everywhere
(`crs="EPSG:4326"`). -/
def epsg4326 : String := "EPSG:4326"

/-! ## Boundary Source Client
`fetch_tracts_for_county` in build_full_territory_map.py (lines 131-148) and
`fetch_all_tracts_for_county` in build_vipr_complete_map.py (lines 125-143).
-/

/-- The body of an HTTP response: `badJson` when `resp.json()` raises (a
malformed payload, caught by the `except` clause), `json features` when the
payload parses; a payload without a `features` key behaves exactly like an
empty features list (`data.get('features')` is falsy for both), so the two
are identified. -/
inductive ResponseBody where
  | badJson : ResponseBody
  | json (features : List Tract) : ResponseBody
deriving DecidableEq

/-- What the remote feature service did on one `requests.get` call:
`netError` when the call raised (timeout, connection error - caught by the
`except` clause), `http status body` when a response came back. -/
inductive FetchResponse where
  | netError : FetchResponse
  | http (status : Nat) (body : ResponseBody) : FetchResponse
deriving DecidableEq

/-- A response on which the spec's failure policy applies: a network error,
a non-success status code, or a malformed payload. -/
def isFetchFailure : FetchResponse → Bool
  | .netError => true
  | .http status body =>
      if status = 200 then
        match body with
        | .badJson => true
        | .json _ => false
      else true

/-- `fetch_tracts_for_county` (build_full_territory_map.py lines 131-148):
on a 200 response with a truthy `features` list, builds a GeoDataFrame with
CRS EPSG:4326; every other outcome (exception caught, non-200 status, falsy
features) falls through to `return None`. -/
def fetch_tracts_for_county : FetchResponse → Option GeoDataFrame
  | .netError => none
  | .http status body =>
      if status = 200 then
        match body with
        | .badJson => none
        | .json features =>
            if features.isEmpty then none
            else some { rows := features, crs := some epsg4326 }
      else none

/-- `fetch_all_tracts_for_county` (build_vipr_complete_map.py lines 125-143):
textually the same client logic as `fetch_tracts_for_county`. -/
def fetch_all_tracts_for_county : FetchResponse → Option GeoDataFrame
  | .netError => none
  | .http status body =>
      if status = 200 then
        match body with
        | .badJson => none
        | .json features =>
            if features.isEmpty then none
            else some { rows := features, crs := some epsg4326 }
      else none

/-! ## Aggregator
The `pd.concat(all_tracts, ignore_index=True)` step followed by
`gpd.GeoDataFrame(..., geometry='geometry', crs="EPSG:4326")`
(build_full_territory_map.py lines 389-391, build_vipr_complete_map.py
lines 255-257). -/

/-- The Aggregator of the scripts: plain concatenation of the per-unit
frames, re-tagged with CRS EPSG:4326.  No deduplication of any kind is
performed by `pd.concat`. -/
def concatAllTracts (frames : List GeoDataFrame) : GeoDataFrame :=
  { rows := (frames.map GeoDataFrame.rows).flatten, crs := some epsg4326 }

/-- The fetch loop of `main` in build_full_territory_map.py (lines 378-383):
iterate over the unit identifiers, fetch each, and keep the result only when
it is not None and non-empty.  The per-unit response is supplied by `resp`. -/
def mainFetchLoop (resp : String → FetchResponse) (counties : List String) :
    List GeoDataFrame :=
  counties.filterMap (fun c =>
    match fetch_tracts_for_county (resp c) with
    | none => none
    | some g => if 0 < g.rows.length then some g else none)

/-- The fetch-and-aggregate portion of `main` in build_full_territory_map.py
(lines 378-391): run the fetch loop, abort with None when nothing was fetched
(`if not all_tracts: return`), otherwise concatenate. -/
def mainAggregate (resp : String → FetchResponse) (counties : List String) :
    Option GeoDataFrame :=
  let fetched := mainFetchLoop resp counties
  if fetched.isEmpty then none else some (concatAllTracts fetched)

/-! ## Eligibility Filter
`all_tracts_gdf[all_tracts_gdf['GEOID'].isin(qct_geoids)]`
(build_full_territory_map.py line 395, canvassing_map_builder.py line 338). -/

/-- The eligibility filter of the scripts: keep exactly the rows whose GEOID
column value is a member of the eligibility list.  `Series.isin` tests
membership by exact equality, which for the GEOID string column is exact
string equality. -/
def filterToEligible (g : GeoDataFrame) (qcts : List String) : GeoDataFrame :=
  { rows := g.rows.filter (fun t => qcts.contains t.geoid), crs := g.crs }

/-! ## Geometry Normalizer
`ensure_same_crs` and `prepare_for_json` in filter_zones_dominion.py
(lines 63-73 and 91-104). -/

/-- `gdf.to_crs(target)`: reproject every row geometry from the frame's CRS
into the target CRS and re-tag the frame.  The coordinate transform itself is
the parameter `reproj` (the scripts never inspect coordinates afterwards). -/
def to_crs (reproj : Option String → String → Geometry → Geometry)
    (g : GeoDataFrame) (target : String) : GeoDataFrame :=
  { rows := g.rows.map (fun t => { t with geometry := reproj g.crs target t.geometry }),
    crs := some target }

/-- `ensure_same_crs` (filter_zones_dominion.py lines 91-104): None passes
through; a frame with no CRS is assumed to be EPSG:4326 (`set_crs`); a frame
whose CRS differs from the target is reprojected (`to_crs`); otherwise the
frame is returned unchanged. -/
def ensure_same_crs (reproj : Option String → String → Geometry → Geometry)
    (gdf : Option GeoDataFrame) (target : String) : Option GeoDataFrame :=
  match gdf with
  | none => none
  | some g =>
      let g1 := if g.crs = none then { g with crs := some epsg4326 } else g
      if g1.crs ≠ some target then some (to_crs reproj g1 target) else some g1

/-- The per-value conversion of the sanitization step: a value of a
datetime-typed column becomes its string representation (`astype(str)`),
all other values are unchanged. -/
def convertValue : AttrValue → AttrValue
  | .dtime t => .str (toString t)
  | v => v

/-- The per-row effect of `prepare_for_json`: every non-geometry attribute
value is converted by `convertValue`; the geometry (and the GEOID and NAME
string columns, which are never datetime-typed) are untouched. -/
def prepareRow (t : Tract) : Tract :=
  { t with attrs := t.attrs.map (fun kv => (kv.1, convertValue kv.2)) }

/-- `prepare_for_json` (filter_zones_dominion.py lines 63-73): None passes
through; otherwise each datetime-typed column is converted to strings column
by column, skipping the geometry column.  The columns of these frames are
homogeneous, so the columnwise conversion is the rowwise `prepareRow`. -/
def prepare_for_json : Option GeoDataFrame → Option GeoDataFrame
  | none => none
  | some g => some { rows := g.rows.map prepareRow, crs := g.crs }

/-! ## Boundary Clipper
`clip_to_boundary` in filter_zones_dominion.py (lines 107-119). -/

/-- `gpd.overlay(gdf, boundary[['geometry']], how='intersection')`: every
pair of a dataset row and a boundary row contributes the intersection of
their geometries when it is non-empty; empty (zero-area) intersections are
not present in the result.  Only the geometry column of the boundary frame
participates; the attribute columns of the dataset row are carried over.
The CRS tags of the two frames are not consulted. -/
def overlayIntersection (g b : GeoDataFrame) : List Tract :=
  g.rows.flatMap (fun t =>
    b.rows.filterMap (fun bt =>
      let i := t.geometry ∩ bt.geometry
      if i = ∅ then none else some { t with geometry := i }))

/-- `clip_to_boundary` (filter_zones_dominion.py lines 107-119): None inputs
pass through as None; otherwise the overlay intersection is returned (tagged,
as `gpd.overlay` does, with the dataset's CRS).  The `except` clause only
fires when `gpd.overlay` raises, which on the valid geometries of the model
never happens; in particular the function performs no CRS comparison. -/
def clip_to_boundary (gdf boundary : Option GeoDataFrame) : Option GeoDataFrame :=
  match gdf, boundary with
  | none, _ => none
  | _, none => none
  | some g, some b => some { rows := overlayIntersection g b, crs := g.crs }

/-! ## Concrete sample data for witnesses and counterexamples -/

/-- A second CRS string, as it would arrive from a file whose layer is stored
in web-mercator coordinates. -/
def epsg3857 : String := "EPSG:3857"

/-- A sample tract row (a Richmond City GEOID from the eligibility tables). -/
def sampleTract1 : Tract :=
  { geoid := "51760000101", name := "Census Tract 1.01",
    geometry := {(0, 0)}, attrs := [] }

/-- A second sample tract row with a distinct GEOID and distinct geometry. -/
def sampleTract2 : Tract :=
  { geoid := "51087200101", name := "Census Tract 2001.01",
    geometry := {(1, 1)}, attrs := [] }

/-- A tract row sharing `sampleTract1`'s GEOID but fetched from a different
unit (different name and geometry). -/
def sampleTractDup : Tract :=
  { geoid := "51760000101", name := "Census Tract 1.01 (dup)",
    geometry := {(2, 2)}, attrs := [] }

/-- A boundary row whose geometry covers the two sample tracts. -/
def sampleBoundaryTract : Tract :=
  { geoid := "B1", name := "Service Territory",
    geometry := {(0, 0), (1, 1), (2, 2)}, attrs := [] }

/-- A boundary row whose geometry is far away from every sample tract. -/
def sampleBoundaryFar : Tract :=
  { geoid := "B2", name := "Far Territory",
    geometry := {(100, 100)}, attrs := [] }

/-- A one-unit frame holding `sampleTract1`. -/
def unitFrame1 : GeoDataFrame :=
  { rows := [sampleTract1], crs := some epsg4326 }

/-- A one-unit frame holding `sampleTract2`. -/
def unitFrame2 : GeoDataFrame :=
  { rows := [sampleTract2], crs := some epsg4326 }

/-- A one-unit frame holding the duplicate of `sampleTract1`. -/
def unitFrameDup : GeoDataFrame :=
  { rows := [sampleTractDup], crs := some epsg4326 }

/-- A two-row dataset frame in EPSG:4326. -/
def sampleDataset : GeoDataFrame :=
  { rows := [sampleTract1, sampleTract2], crs := some epsg4326 }

/-- A single-feature boundary frame in EPSG:4326 containing both sample
tract geometries. -/
def sampleBoundary : GeoDataFrame :=
  { rows := [sampleBoundaryTract], crs := some epsg4326 }

/-- A single-feature boundary frame in EPSG:4326 overlapping no sample
tract geometry. -/
def sampleBoundaryDisjoint : GeoDataFrame :=
  { rows := [sampleBoundaryFar], crs := some epsg4326 }

/-- A single-feature boundary frame carrying a different CRS tag than
`sampleDataset`. -/
def sampleBoundaryOtherCrs : GeoDataFrame :=
  { rows := [sampleBoundaryFar], crs := some epsg3857 }

/-- A frame with one datetime-typed attribute column. -/
def sampleFrameWithDatetime : GeoDataFrame :=
  { rows := [{ geoid := "51550020100", name := "Census Tract 201",
               geometry := {(3, 3)},
               attrs := [("ACQUIRED", AttrValue.dtime 1700000000)] }],
    crs := some epsg4326 }

/-- Unit identifiers for the three-unit fetch scenario. -/
def unitA : String := "041"

/-- Second unit identifier of the scenario. -/
def unitB : String := "087"

/-- Third unit identifier of the scenario. -/
def unitC : String := "760"

/-- The remote service behaviour of the scenario: unit `unitB` fails with a
network error, the other two units answer with one tract each. -/
def scenarioResp : String → FetchResponse := fun u =>
  if u = unitA then .http 200 (.json [sampleTract1])
  else if u = unitB then .netError
  else .http 200 (.json [sampleTract2])

/-! ## Helper lemmas -/

/-- Every response classified as a failure makes `fetch_tracts_for_county`
return the no-data signal. -/
theorem fetch_failure_none (r : FetchResponse) (h : isFetchFailure r = true) :
    fetch_tracts_for_county r = none := by
  cases r with
  | netError => rfl
  | http status body =>
    cases body with
    | badJson => simp [fetch_tracts_for_county]
    | json fs =>
      have hs : status ≠ 200 := by
        intro hstatus
        subst hstatus
        simp [isFetchFailure] at h
      simp [fetch_tracts_for_county, hs]

/-- Every response classified as a failure makes `fetch_all_tracts_for_county`
return the no-data signal. -/
theorem fetch_all_failure_none (r : FetchResponse) (h : isFetchFailure r = true) :
    fetch_all_tracts_for_county r = none := by
  cases r with
  | netError => rfl
  | http status body =>
    cases body with
    | badJson => simp [fetch_all_tracts_for_county]
    | json fs =>
      have hs : status ≠ 200 := by
        intro hstatus
        subst hstatus
        simp [isFetchFailure] at h
      simp [fetch_all_tracts_for_county, hs]

/-- A successful fetch always carries at least one row (the empty feature
list is turned into the no-data signal instead). -/
theorem fetch_some_nonempty (r : FetchResponse) (g : GeoDataFrame)
    (h : fetch_tracts_for_county r = some g) : 0 < g.rows.length := by
  cases r with
  | netError => simp [fetch_tracts_for_county] at h
  | http status body =>
    cases body with
    | badJson => simp [fetch_tracts_for_county] at h
    | json fs =>
      by_cases hs : status = 200
      · subst hs
        by_cases hfs : fs.isEmpty
        · simp [fetch_tracts_for_county, hfs] at h
        · simp [fetch_tracts_for_county, hfs] at h
          cases h
          simp [List.isEmpty_iff] at hfs
          exact List.length_pos.mpr hfs
      · simp [fetch_tracts_for_county, hs] at h

/-- The frame returned by `ensure_same_crs` on a present input always carries
exactly the target CRS. -/
theorem ensure_same_crs_target (reproj : Option String → String → Geometry → Geometry)
    (g : GeoDataFrame) (target : String) :
    ∃ g1 : GeoDataFrame,
      ensure_same_crs reproj (some g) target = some g1 ∧ g1.crs = some target := by
  simp only [ensure_same_crs]
  split
  · split
    · exact ⟨_, rfl, rfl⟩
    · next hne => exact ⟨_, rfl, by simpa using hne⟩
  · split
    · exact ⟨_, rfl, rfl⟩
    · next hne => exact ⟨_, rfl, by simpa using hne⟩

/-! ## Claim theorems -/

/-- Claim C3: the Geometry Normalizer is idempotent: for every reprojection
function, every (possibly absent) Tract collection and every target CRS,
applying `ensure_same_crs` twice yields exactly the result of applying it
once - the second application is a no-op. -/
theorem ensure_same_crs_idempotent
    (reproj : Option String → String → Geometry → Geometry)
    (gdf : Option GeoDataFrame) (target : String) :
    ensure_same_crs reproj (ensure_same_crs reproj gdf target) target
      = ensure_same_crs reproj gdf target := by
  cases gdf with
  | none => rfl
  | some g =>
    obtain ⟨g1, hg1, hcrs⟩ := ensure_same_crs_target reproj g target
    rw [hg1]
    simp [ensure_same_crs, hcrs]

/-- Claim C4: the Eligibility Filter returns exactly the tracts whose GEOID
is a member of the eligibility list under exact string equality, and an empty
eligibility list yields an empty result, never the full input. -/
theorem eligibility_filter_exact_membership (g : GeoDataFrame) (qcts : List String) :
    (∀ t : Tract, t ∈ (filterToEligible g qcts).rows ↔ t ∈ g.rows ∧ t.geoid ∈ qcts)
    ∧ (filterToEligible g ([] : List String)).rows = [] := by
  constructor
  · intro t
    simp [filterToEligible, List.mem_filter]
  · simp [filterToEligible]

/-- Claim C8: filtering with a list containing only identifiers absent from
the dataset yields an empty result, and filtering with a list containing
every present identifier returns the dataset unchanged. -/
theorem eligibility_filter_absent_empty_present_identity
    (g : GeoDataFrame) (qcts : List String) :
    ((∀ t ∈ g.rows, t.geoid ∉ qcts) → (filterToEligible g qcts).rows = [])
    ∧ ((∀ t ∈ g.rows, t.geoid ∈ qcts) → filterToEligible g qcts = g) := by
  constructor
  · intro h
    simp only [filterToEligible]
    rw [List.filter_eq_nil_iff]
    intro t ht
    simp [h t ht]
  · intro h
    have hrows : g.rows.filter (fun t => qcts.contains t.geoid) = g.rows := by
      rw [List.filter_eq_self]
      intro t ht
      simp [h t ht]
    cases g with
    | mk rows crs =>
      simp only [filterToEligible] at hrows ⊢
      rw [hrows]

/-- Witness for claim C8 at a concrete dataset: a list of absent identifiers
filters `sampleDataset` to nothing, and the list of both present identifiers
leaves it unchanged. -/
theorem eligibility_filter_absent_empty_present_identity_witness :
    (filterToEligible sampleDataset [unitA]).rows = []
    ∧ filterToEligible sampleDataset [sampleTract1.geoid, sampleTract2.geoid]
        = sampleDataset :=
  ⟨(eligibility_filter_absent_empty_present_identity sampleDataset [unitA]).1
      (by decide),
   (eligibility_filter_absent_empty_present_identity sampleDataset
      [sampleTract1.geoid, sampleTract2.geoid]).2 (by decide)⟩

/-- Claim C10: the Source Clients return the same no-data signal (`none`)
for a successful, well-formed response with zero features as for every
failure (network error, non-success status, malformed payload): at the
client interface an empty successful fetch is indistinguishable from a
failed fetch. -/
theorem empty_fetch_indistinguishable_from_failure :
    fetch_tracts_for_county (.http 200 (.json [])) = none
    ∧ fetch_all_tracts_for_county (.http 200 (.json [])) = none
    ∧ (∀ r : FetchResponse, isFetchFailure r = true →
        fetch_tracts_for_county r = none ∧ fetch_all_tracts_for_county r = none) := by
  refine ⟨rfl, rfl, fun r hr => ⟨fetch_failure_none r hr, fetch_all_failure_none r hr⟩⟩

/-- Witness for claim C10: a network error yields the same `none` as the
empty successful fetch does. -/
theorem empty_fetch_indistinguishable_from_failure_witness :
    fetch_tracts_for_county FetchResponse.netError = none
    ∧ fetch_all_tracts_for_county FetchResponse.netError = none :=
  empty_fetch_indistinguishable_from_failure.2.2 FetchResponse.netError (by decide)

/-- Claim C9: the attribute-sanitization step converts every datetime-typed
attribute value to its string representation (no datetime value remains)
while leaving the geometry column unchanged - the output geometry (and the
GEOID) of every row equals that of the corresponding input row. -/
theorem prepare_for_json_preserves_geometry (g : GeoDataFrame) :
    ∃ g1 : GeoDataFrame, prepare_for_json (some g) = some g1
      ∧ g1.rows.map Tract.geometry = g.rows.map Tract.geometry
      ∧ g1.rows.map Tract.geoid = g.rows.map Tract.geoid
      ∧ ∀ t ∈ g1.rows, ∀ kv ∈ t.attrs, kv.2.isDatetime = false := by
  refine ⟨_, rfl, ?_, ?_, ?_⟩
  · simp [prepareRow, List.map_map, Function.comp]
  · simp [prepareRow, List.map_map, Function.comp]
  · intro t ht kv hkv
    simp only [List.mem_map] at ht
    obtain ⟨t0, _, rfl⟩ := ht
    simp only [prepareRow, List.mem_map] at hkv
    obtain ⟨kv0, _, rfl⟩ := hkv
    cases kv0.2 <;> simp [convertValue, AttrValue.isDatetime]

/-- Witness for claim C9 at a frame with a datetime-typed column. -/
theorem prepare_for_json_preserves_geometry_witness :
    ∃ g1 : GeoDataFrame, prepare_for_json (some sampleFrameWithDatetime) = some g1
      ∧ g1.rows.map Tract.geometry = sampleFrameWithDatetime.rows.map Tract.geometry
      ∧ g1.rows.map Tract.geoid = sampleFrameWithDatetime.rows.map Tract.geoid
      ∧ ∀ t ∈ g1.rows, ∀ kv ∈ t.attrs, kv.2.isDatetime = false :=
  prepare_for_json_preserves_geometry sampleFrameWithDatetime

/-- Claim C5: clipping a dataset against a boundary with zero geometric
overlap (same CRS) returns an empty clipped dataset - a normal result, not
the error signal `none`; every tract entirely outside the boundary is
dropped. -/
theorem clip_zero_overlap_yields_empty (g b : GeoDataFrame)
    (hcrs : g.crs = b.crs)
    (hdisj : ∀ t ∈ g.rows, ∀ bt ∈ b.rows, t.geometry ∩ bt.geometry = ∅) :
    clip_to_boundary (some g) (some b) = some { rows := [], crs := g.crs } := by
  have hov : overlayIntersection g b = [] := by
    simp only [overlayIntersection]
    rw [List.flatMap_eq_nil_iff]
    intro t ht
    rw [List.filterMap_eq_nil_iff]
    intro bt hbt
    simp [hdisj t ht bt hbt]
  simp [clip_to_boundary, hov]

/-- Witness for claim C5: the sample dataset against the disjoint boundary
clips to an empty result without an error. -/
theorem clip_zero_overlap_yields_empty_witness :
    clip_to_boundary (some sampleDataset) (some sampleBoundaryDisjoint)
      = some { rows := [], crs := sampleDataset.crs } :=
  clip_zero_overlap_yields_empty sampleDataset sampleBoundaryDisjoint
    (by decide) (by decide)

/-- Claim C6: when the (single-feature) service boundary fully contains every
input geometry and the CRS agree, clipping is a no-op: the output rows equal
the input rows, geometry for geometry.  (Non-empty geometries, per the
ZoneDataset invariant of the spec's data model.) -/
theorem clip_noop_when_boundary_contains_all (g b : GeoDataFrame) (bt : Tract)
    (hb : b.rows = [bt])
    (hcrs : g.crs = b.crs)
    (hne : ∀ t ∈ g.rows, t.geometry ≠ ∅)
    (hsub : ∀ t ∈ g.rows, t.geometry ⊆ bt.geometry) :
    clip_to_boundary (some g) (some b) = some { rows := g.rows, crs := g.crs } := by
  have aux : ∀ rows : List Tract, (∀ t ∈ rows, t.geometry ≠ ∅) →
      (∀ t ∈ rows, t.geometry ⊆ bt.geometry) →
      rows.flatMap (fun t => [bt].filterMap (fun bt2 =>
        let i := t.geometry ∩ bt2.geometry
        if i = ∅ then none else some { t with geometry := i })) = rows := by
    intro rows
    induction rows with
    | nil => intro _ _; rfl
    | cons t ts ih =>
      intro h1 h2
      have hi : t.geometry ∩ bt.geometry = t.geometry :=
        Finset.inter_eq_left.mpr (h2 t (List.mem_cons_self t ts))
      have hni : t.geometry ≠ ∅ := h1 t (List.mem_cons_self t ts)
      have hrest := ih (fun x hx => h1 x (List.mem_cons_of_mem t hx))
        (fun x hx => h2 x (List.mem_cons_of_mem t hx))
      rw [List.flatMap_cons, hrest]
      simp [hi, hni]
  have hov : overlayIntersection g b = g.rows := by
    simp only [overlayIntersection, hb]
    exact aux g.rows hne hsub
  simp [clip_to_boundary, hov]

/-- Witness for claim C6: the sample dataset clipped to the containing
boundary comes back with exactly its input rows. -/
theorem clip_noop_when_boundary_contains_all_witness :
    clip_to_boundary (some sampleDataset) (some sampleBoundary)
      = some { rows := sampleDataset.rows, crs := sampleDataset.crs } :=
  clip_noop_when_boundary_contains_all sampleDataset sampleBoundary
    sampleBoundaryTract (by decide) (by decide) (by decide) (by decide)

/-- Counterexample to claim C2: a dataset in EPSG:4326 clipped against a
boundary tagged EPSG:3857 is not rejected - `clip_to_boundary` performs no
CRS comparison, attempts the intersection on raw coordinates, and silently
returns an ordinary empty result rather than any failure signal. -/
theorem clipper_silent_on_crs_mismatch :
    sampleDataset.crs ≠ sampleBoundaryOtherCrs.crs
    ∧ clip_to_boundary (some sampleDataset) (some sampleBoundaryOtherCrs)
        = some { rows := [], crs := some epsg4326 } := by
  constructor
  · decide
  · decide

/-- Claim C2 as amended: the Boundary Clipper performs no CRS precondition
check at all; for any dataset and boundary whose CRS tags differ it still
attempts the intersection, returning the plain overlay result (never the
`none` failure signal).  CRS agreement is only established upstream, by the
Normalizer being run on both inputs first. -/
theorem clipper_no_crs_precondition_check (g b : GeoDataFrame)
    (hcrs : g.crs ≠ b.crs) :
    clip_to_boundary (some g) (some b)
        = some { rows := overlayIntersection g b, crs := g.crs }
    ∧ clip_to_boundary (some g) (some b) ≠ none :=
  ⟨rfl, by simp [clip_to_boundary]⟩

/-- Witness for the amended claim C2 at the CRS-mismatched sample pair. -/
theorem clipper_no_crs_precondition_check_witness :
    clip_to_boundary (some sampleDataset) (some sampleBoundaryOtherCrs)
        = some { rows := overlayIntersection sampleDataset sampleBoundaryOtherCrs,
                 crs := sampleDataset.crs }
    ∧ clip_to_boundary (some sampleDataset) (some sampleBoundaryOtherCrs) ≠ none :=
  clipper_no_crs_precondition_check sampleDataset sampleBoundaryOtherCrs (by decide)

/-- Counterexample to claim C1: two per-unit collections sharing the GEOID
51760000101 are concatenated by the Aggregator without deduplication - the
identifier appears twice in the output and the later duplicate row is kept,
not discarded. -/
theorem aggregator_keeps_duplicates :
    (concatAllTracts [unitFrame1, unitFrameDup]).rows.map Tract.geoid
      = [sampleTract1.geoid, sampleTract1.geoid]
    ∧ sampleTractDup ∈ (concatAllTracts [unitFrame1, unitFrameDup]).rows := by
  constructor
  · decide
  · decide

/-- Claim C1 as amended: the Aggregator concatenates the per-unit collections
without any deduplication, so a Tract identifier appears exactly once in the
output precisely when the per-unit collections are internally duplicate-free
and pairwise disjoint on identifiers - which the pipeline's enumeration of
distinct administrative units provides. -/
theorem aggregator_unique_of_disjoint_units (frames : List GeoDataFrame)
    (hIn : ∀ f ∈ frames, (f.rows.map Tract.geoid).Nodup)
    (hDisj : frames.Pairwise (fun f1 f2 =>
        ∀ a ∈ f1.rows.map Tract.geoid, a ∉ f2.rows.map Tract.geoid)) :
    ((concatAllTracts frames).rows.map Tract.geoid).Nodup := by
  simp only [concatAllTracts]
  rw [List.map_flatten, List.map_map, List.nodup_flatten]
  constructor
  · intro l hl
    simp only [List.mem_map] at hl
    obtain ⟨f, hf, rfl⟩ := hl
    exact hIn f hf
  · rw [List.pairwise_map]
    exact hDisj.imp (fun h a ha => h a ha)

/-- Witness for the amended claim C1: two units with distinct GEOIDs
aggregate to a dataset in which every identifier appears exactly once. -/
theorem aggregator_unique_of_disjoint_units_witness :
    ((concatAllTracts [unitFrame1, unitFrame2]).rows.map Tract.geoid).Nodup :=
  aggregator_unique_of_disjoint_units [unitFrame1, unitFrame2]
    (by decide) (by decide)

/-- Claim C7: every fetch failure (network error, non-success status,
malformed payload) is caught and yields the explicit no-data signal instead
of a crash, and in the three-unit scenario where the middle unit's fetch
fails the pipeline still completes, its final dataset holding exactly the
rows of the two successful units. -/
theorem fetch_failure_never_aborts_pipeline :
    (∀ r : FetchResponse, isFetchFailure r = true → fetch_tracts_for_county r = none)
    ∧ ∀ (u1 u2 u3 : String) (resp : String → FetchResponse) (g1 g3 : GeoDataFrame),
        isFetchFailure (resp u2) = true →
        fetch_tracts_for_county (resp u1) = some g1 →
        fetch_tracts_for_county (resp u3) = some g3 →
        mainAggregate resp [u1, u2, u3]
          = some { rows := g1.rows ++ g3.rows, crs := some epsg4326 } := by
  refine ⟨fetch_failure_none, ?_⟩
  intro u1 u2 u3 resp g1 g3 hfail h1 h3
  have h2 := fetch_failure_none (resp u2) hfail
  have n1 := fetch_some_nonempty (resp u1) g1 h1
  have n3 := fetch_some_nonempty (resp u3) g3 h3
  simp [mainAggregate, mainFetchLoop, h1, h2, h3, n1, n3, concatAllTracts]

/-- Witness for claim C7: in the concrete scenario where unit 087 of three
units hits a network error, the pipeline completes with exactly the rows of
units 041 and 760. -/
theorem fetch_failure_never_aborts_pipeline_witness :
    mainAggregate scenarioResp [unitA, unitB, unitC]
      = some { rows := unitFrame1.rows ++ unitFrame2.rows, crs := some epsg4326 } :=
  fetch_failure_never_aborts_pipeline.2 unitA unitB unitC scenarioResp
    unitFrame1 unitFrame2 (by decide) (by decide) (by decide)

end Emg
